import Mathlib

/-!
Verification of the nvidia-smi exporter's core pipeline (`src/main.rs`).

The program shells out to `nvidia-smi` with a fixed `--query-gpu=...` argument,
parses its stdout as headerless CSV, and renders one exposition line per metric
column per GPU row.  The embedding below translates `process_nvidia_smi` and
`handle_metrics` into Lean, with Rust panics modelled as `none` / `panicked`
and `anyhow` errors as explicit error constructors.

The `csv` crate is an external dependency; it is modelled here for inputs whose
fields do not start with a quote character (true of all `nvidia-smi` CSV
output): records are newline-separated lines, blank lines are skipped, fields
are comma-separated, and — because `ReaderBuilder` is left at its default
`flexible = false` — a record whose field count differs from the first
record's field count is surfaced as a per-record error.
-/

set_option autoImplicit false

namespace NvidiaSmi

/-- Splitting a character list at every occurrence of the separator `c`;
char-level model of the field/line splitting done by the `csv` crate. -/
def splitChar (c : Char) : List Char → List (List Char)
  | [] => [[]]
  | x :: xs =>
    if x = c then
      [] :: splitChar c xs
    else
      match splitChar c xs with
      | [] => [[x]]
      | g :: gs => (x :: g) :: gs

/-- Whitespace trimming of both ends of a character list; model of Rust's
`str::trim` (agreeing with it on ASCII whitespace). -/
def trimChars (l : List Char) : List Char :=
  ((l.dropWhile Char.isWhitespace).reverse.dropWhile Char.isWhitespace).reverse

/-- Model of Rust's `str::trim` as used on the GPU index field in
`process_nvidia_smi`. -/
def trimStr (s : String) : String :=
  String.mk (trimChars s.data)

/-- The lines the CSV reader sees: stdout split at newlines, blank lines
skipped (the `csv` crate ignores empty lines). -/
def csvLines (s : String) : List (List Char) :=
  (splitChar '\n' s.data).filter (fun l => !l.isEmpty)

/-- One line split into its comma-separated fields. -/
def splitFields (l : List Char) : List String :=
  (splitChar ',' l).map String.mk

/-- The record iterator of the `csv` reader configured in
`process_nvidia_smi` (`has_headers(false)`, default `flexible = false`):
every non-blank line yields a record, and a record whose field count differs
from the first record's field count yields an error (`UnequalLengths`)
instead. -/
def parseRecords (s : String) : List (Except Unit (List String)) :=
  match csvLines s with
  | [] => []
  | l0 :: rest =>
    (l0 :: rest).map fun l =>
      let f := splitFields l
      if f.length = (splitFields l0).length then Except.ok f else Except.error ()

/-- The fixed metric catalog `METRIC_LIST` from `main.rs` (a `lazy_static`
immutable list, modelled as a constant). -/
def METRIC_LIST : List String :=
  ["nvidia_fan_speed",
   "nvidia_temperature_gpu",
   "nvidia_clocks_gr",
   "nvidia_clocks_sm",
   "nvidia_clocks_mem",
   "nvidia_power_draw",
   "nvidia_utilization_gpu",
   "nvidia_utilization_memory",
   "nvidia_memory_total",
   "nvidia_memory_free",
   "nvidia_memory_used"]

/-- The fixed `--query-gpu=...` argument passed to `nvidia-smi` in
`process_nvidia_smi`. -/
def QUERY_ARG : String :=
  "--query-gpu=name,index,fan.speed,temperature.gpu,clocks.gr,clocks.sm,clocks.mem,power.draw,utilization.gpu,utilization.memory,memory.total,memory.free,memory.used"

/-- The column names requested from the external tool: the part of
`QUERY_ARG` after the `--query-gpu=` option name, split at commas. -/
def queryColumns : List String :=
  (splitChar ',' (QUERY_ARG.data.drop ("--query-gpu=".data.length))).map String.mk

/-- Naming convention linking a requested column to its exported metric name:
`nvidia_` prefixed to the column name with dots replaced by underscores. -/
def colMetric (c : String) : String :=
  "nvidia_" ++ String.mk (c.data.map (fun ch => if ch = '.' then '_' else ch))

/-- One rendered exposition line, the Lean form of
`format!("\x7b\x7d\x7b\x7bgpu=\"\x7b\x7d\", name=\"\x7b\x7d\"\x7d\x7d \x7b\x7d\n", metric, index, name, value)`
in `process_nvidia_smi` (`\x7b` and `\x7d` denote the brace characters). -/
def renderLine (metric index name value : String) : String :=
  metric ++ "\x7bgpu=\"" ++ index ++ "\", name=\"" ++ name ++ "\"\x7d " ++ value ++ "\n"

/-- The inner loop of `process_nvidia_smi`:
`for (idx, i) in (2..record.len()).enumerate()` renders field `i` against
`METRIC_LIST.get(idx).unwrap()`.  `vs` is the list of fields from position 2
on, `idx` the running catalog index; `none` models the panic of the `unwrap`
when the catalog has no entry at `idx`. -/
def mapFields (index name : String) (idx : Nat) : List String → Option String
  | [] => some ""
  | v :: vs =>
    match METRIC_LIST.get? idx with
    | none => none
    | some m =>
      match mapFields index name (idx + 1) vs with
      | none => none
      | some s => some (renderLine m index name v ++ s)

/-- Per-record part of `process_nvidia_smi`:
`record.get(0).unwrap()` is the GPU name, `record.get(1).unwrap().trim()` the
GPU index, and the remaining fields are rendered by the inner loop.  `none`
models the panic of the `unwrap` on `record.get(1)` when the record has fewer
than two fields. -/
def mapRecord (record : List String) : Option String :=
  match record with
  | name :: index0 :: rest => mapFields (trimStr index0) name 0 rest
  | _ => none

/-- Outcome of `process_nvidia_smi` as observed by its caller: the returned
buffer, an `anyhow` error from the invocation, an `anyhow` error from a CSV
record (`result?`), or a panic from one of the `unwrap`s. -/
inductive ProcResult
  | ok (buffer : String)
  | invocationError
  | parseError
  | panicked
deriving DecidableEq, Repr

/-- The record loop of `process_nvidia_smi`: `buffer` is the accumulated
string, the first record error aborts via `?`, and a panic in the mapping
aborts everything. -/
def processRecords (recs : List (Except Unit (List String))) (buffer : String) : ProcResult :=
  match recs with
  | [] => ProcResult.ok buffer
  | Except.error _ :: _ => ProcResult.parseError
  | Except.ok r :: rest =>
    match mapRecord r with
    | none => ProcResult.panicked
    | some s => processRecords rest (buffer ++ s)

/-- The parse–map–render part of `process_nvidia_smi`, from captured stdout to
its result. -/
def gpuPipeline (stdout : String) : ProcResult :=
  processRecords (parseRecords stdout) ""

/-- Possible outcomes of the `Command::new("nvidia-smi")....output()` call:
either the process could not be started (`io::Error`), or it ran and produced
captured stdout together with an exit code. -/
inductive InvokeOutcome
  | spawnFailed
  | ran (stdout : String) (exitCode : Nat)
deriving DecidableEq, Repr

/-- The tool invocation step of `process_nvidia_smi`:
`.output().with_context(...)?` errs exactly when the process could not be
started; the exit status of a process that did run is never inspected. -/
def invoke : InvokeOutcome → Except Unit String
  | InvokeOutcome.spawnFailed => Except.error ()
  | InvokeOutcome.ran stdout _ => Except.ok stdout

/-- Tool invoker as the specification describes it, for comparison with
`invoke`: failing both when the tool cannot be started and when it exits
abnormally (non-zero exit status). -/
def invokeSpec : InvokeOutcome → Except Unit String
  | InvokeOutcome.spawnFailed => Except.error ()
  | InvokeOutcome.ran stdout exitCode =>
      if exitCode = 0 then Except.ok stdout else Except.error ()

/-- The whole of `process_nvidia_smi`: invoke the tool, then parse, map and
render its stdout. -/
def process_nvidia_smi (inv : InvokeOutcome) : ProcResult :=
  match invoke inv with
  | Except.error _ => ProcResult.invocationError
  | Except.ok stdout => gpuPipeline stdout

/-- Outcome of one `/metrics` request: an HTTP response (status and body) or
a panic escaping the handler. -/
inductive HttpResult
  | response (status : Nat) (body : String)
  | panicked
deriving DecidableEq, Repr

/-- The `/metrics` handler `handle_metrics`: the registry rendering
(`prometheus::gather()` + `TextEncoder`, a collaborator, passed in as
`registryBuf`) with the GPU buffer appended on success; on an `Err` from
`process_nvidia_smi` the error is only logged and the registry buffer is
served alone; the response status is always 200. -/
def handle_metrics (registryBuf : String) (inv : InvokeOutcome) : HttpResult :=
  match process_nvidia_smi inv with
  | ProcResult.ok gpuBuffer => HttpResult.response 200 (registryBuf ++ gpuBuffer)
  | ProcResult.invocationError => HttpResult.response 200 registryBuf
  | ProcResult.parseError => HttpResult.response 200 registryBuf
  | ProcResult.panicked => HttpResult.panicked

/-- Concatenation of a list of rendered lines into one buffer. -/
def concatAll : List String → String
  | [] => ""
  | s :: rest => s ++ concatAll rest

/-- The exposition lines a fully processed record contributes, in catalog
order: field `2 + i` rendered against catalog entry `i`. -/
def recordLines (record : List String) : List String :=
  match record with
  | name :: index0 :: rest =>
    (METRIC_LIST.zip rest).map (fun p => renderLine p.1 (trimStr index0) name p.2)
  | _ => []

/-- Boolean test that `p` is an initial segment of `s` (character-wise). -/
def listBegins : List Char → List Char → Bool
  | [], _ => true
  | _ :: _, [] => false
  | a :: as, b :: bs => a = b && listBegins as bs

/-- Boolean test that the string `p` is an initial segment of the string `s`. -/
def strBegins (p s : String) : Bool :=
  listBegins p.data s.data

/-- The buffer of a successful pipeline run, `none` otherwise. -/
def bufferOf : ProcResult → Option String
  | ProcResult.ok b => some b
  | _ => none

lemma concatAll_append (l₁ l₂ : List String) :
    concatAll (l₁ ++ l₂) = concatAll l₁ ++ concatAll l₂ := by
  induction l₁ with
  | nil => simp [concatAll, String.empty_append]
  | cons s rest ih => simp [concatAll, ih, String.append_assoc]

lemma METRIC_LIST_length : METRIC_LIST.length = 11 := rfl

lemma mapFields_eq_some (ix n : String) :
    ∀ (vs : List String) (idx : Nat), idx + vs.length ≤ 11 →
      mapFields ix n idx vs =
        some (concatAll (((METRIC_LIST.drop idx).zip vs).map
          (fun p => renderLine p.1 ix n p.2)))
  | [], idx, _ => by simp [mapFields, List.zip_nil_right, concatAll]
  | v :: vs, idx, h => by
    have hidx : idx < METRIC_LIST.length := by
      rw [METRIC_LIST_length]; simp at h; omega
    have hget : METRIC_LIST.get? idx = some (METRIC_LIST[idx]) := by
      rw [List.get?_eq_getElem?, List.getElem?_eq_getElem hidx]
    have hdrop : METRIC_LIST.drop idx = METRIC_LIST[idx] :: METRIC_LIST.drop (idx + 1) :=
      List.drop_eq_getElem_cons hidx
    have hrec := mapFields_eq_some ix n vs (idx + 1) (by simp at h ⊢; omega)
    simp only [mapFields, hget, hrec, hdrop, List.zip_cons_cons, List.map_cons, concatAll]

lemma mapFields_eq_none (ix n : String) :
    ∀ (vs : List String) (idx : Nat), idx ≤ 11 → 11 < idx + vs.length →
      mapFields ix n idx vs = none
  | [], idx, hle, hlt => by simp at hlt; omega
  | v :: vs, idx, hle, hlt => by
    by_cases hidx : idx < 11
    · have hget : METRIC_LIST.get? idx = some (METRIC_LIST[idx]) := by
        rw [List.get?_eq_getElem?, List.getElem?_eq_getElem (by rw [METRIC_LIST_length]; omega)]
      have hrec := mapFields_eq_none ix n vs (idx + 1) (by omega) (by simp at hlt ⊢; omega)
      simp only [mapFields, hget, hrec]
    · have h11 : idx = 11 := by omega
      have hget : METRIC_LIST.get? idx = none := by
        subst h11; rfl
      simp only [mapFields, hget]

lemma mapRecord_eq_some (name index0 : String) (rest : List String)
    (h : rest.length ≤ 11) :
    mapRecord (name :: index0 :: rest) =
      some (concatAll (recordLines (name :: index0 :: rest))) := by
  have := mapFields_eq_some (trimStr index0) name rest 0 (by omega)
  simpa [mapRecord, recordLines] using this

lemma mapRecord_eq_none_of_long (record : List String) (h : 13 < record.length) :
    mapRecord record = none := by
  match record with
  | name :: index0 :: rest =>
    have hlen : 11 < rest.length := by simp at h; omega
    simp [mapRecord, mapFields_eq_none (trimStr index0) name rest 0 (by omega) (by omega)]
  | [] => simp at h
  | [x] => simp at h

lemma mapRecord_eq_none_of_short (record : List String) (h : record.length ≤ 1) :
    mapRecord record = none := by
  match record with
  | [] => rfl
  | [x] => rfl
  | x :: y :: rest => simp at h

lemma recordLines_length (name index0 : String) (rest : List String) :
    (recordLines (name :: index0 :: rest)).length = min 11 rest.length := by
  simp [recordLines, METRIC_LIST_length]

lemma processRecords_all_ok :
    ∀ (rows : List (List String)) (buffer : String),
      (∀ r ∈ rows, mapRecord r = some (concatAll (recordLines r))) →
      processRecords (rows.map Except.ok) buffer =
        ProcResult.ok (buffer ++ concatAll (rows.flatMap recordLines))
  | [], buffer, _ => by simp [processRecords, concatAll, String.append_empty]
  | r :: rows, buffer, h => by
    have hr := h r (by simp)
    have hrec := processRecords_all_ok rows (buffer ++ concatAll (recordLines r))
      (fun r' hr' => h r' (by simp [hr']))
    simp only [List.map_cons, processRecords, hr, hrec, List.flatMap_cons, concatAll_append,
      String.append_assoc]

lemma processRecords_parse_err :
    ∀ (pre : List (List String)) (rest : List (Except Unit (List String))) (buffer : String),
      (∀ r ∈ pre, ∃ b, mapRecord r = some b) →
      processRecords (pre.map Except.ok ++ Except.error () :: rest) buffer =
        ProcResult.parseError
  | [], rest, buffer, _ => rfl
  | r :: pre, rest, buffer, h => by
    obtain ⟨b, hb⟩ := h r (by simp)
    have hrec := processRecords_parse_err pre rest (buffer ++ b)
      (fun r' hr' => h r' (by simp [hr']))
    simp only [List.map_cons, List.cons_append, processRecords, hb, List.append_eq, hrec]

lemma processRecords_ne_ok_of_mem_err :
    ∀ (recs : List (Except Unit (List String))) (buffer b : String),
      Except.error () ∈ recs → processRecords recs buffer ≠ ProcResult.ok b
  | [], _, _, hmem => by simp at hmem
  | Except.error () :: _, _, _, _ => by simp [processRecords]
  | Except.ok r :: recs, buffer, b, hmem => by
    have hmem' : Except.error () ∈ recs := by
      rcases List.mem_cons.mp hmem with h | h
      · exact absurd h (by simp)
      · exact h
    cases hmr : mapRecord r with
    | none => simp [processRecords, hmr]
    | some s =>
      simp only [processRecords, hmr]
      exact processRecords_ne_ok_of_mem_err recs (buffer ++ s) b hmem'

lemma zip_take_len {α β : Type} : ∀ (ms : List α) (vs : List β),
    (ms.take vs.length).zip vs = ms.zip vs
  | _, [] => by simp [List.zip_nil_right]
  | [], _ :: _ => by simp
  | m :: ms, v :: vs => by
    simp only [List.length_cons, List.take_succ_cons, List.zip_cons_cons]
    rw [zip_take_len ms vs]

lemma flatMap_recordLines_length (rows : List (List String))
    (h : ∀ r ∈ rows, (recordLines r).length = 11) :
    (rows.flatMap recordLines).length = rows.length * 11 := by
  induction rows with
  | nil => simp
  | cons r rest ih =>
    have hr := h r (by simp)
    have hrest := ih (fun r' hr' => h r' (by simp [hr']))
    simp only [List.flatMap_cons, List.length_append, hr, hrest, List.length_cons]
    omega

example : csvLines "a,b\nc,d\n" = [['a', ',', 'b'], ['c', ',', 'd']] := rfl
example : splitFields ['a', ',', 'b'] = ["a", "b"] := rfl
example : parseRecords "a,b\nc" = [Except.ok ["a", "b"], Except.error ()] := rfl
example : trimStr " 0" = "0" := rfl
example : mapRecord ["foo"] = none := rfl
example : gpuPipeline "a,b" = ProcResult.ok "" := rfl
example : gpuPipeline "a,b,7" =
    ProcResult.ok "nvidia_fan_speed\x7bgpu=\"b\", name=\"a\"\x7d 7\n" := rfl

/-- C1: for every well-formed CSV input parsing into `rows` records of exactly
13 fields each, the pipeline succeeds with a buffer that is exactly the
concatenation, in row-arrival order, of each row's lines in catalog order
(`recordLines` pairs fields 2.. with `METRIC_LIST` in order), and the number
of metric lines is `rows.length * 11`. -/
theorem C1_rows13_lines (s : String) (rows : List (List String))
    (hp : parseRecords s = rows.map Except.ok)
    (hlen : ∀ r ∈ rows, r.length = 13) :
    gpuPipeline s = ProcResult.ok (concatAll (rows.flatMap recordLines)) ∧
      (rows.flatMap recordLines).length = rows.length * 11 := by
  have hmap : ∀ r ∈ rows, mapRecord r = some (concatAll (recordLines r)) := by
    intro r hr
    have hl := hlen r hr
    match r with
    | name :: index0 :: rest =>
      have : rest.length = 11 := by simpa using hl
      exact mapRecord_eq_some name index0 rest (by omega)
    | [] => simp at hl
    | [x] => simp at hl
  have hlines : ∀ r ∈ rows, (recordLines r).length = 11 := by
    intro r hr
    have hl := hlen r hr
    match r with
    | name :: index0 :: rest =>
      have : rest.length = 11 := by simpa using hl
      rw [recordLines_length, this]
      decide
    | [] => simp at hl
    | [x] => simp at hl
  constructor
  · unfold gpuPipeline
    rw [hp, processRecords_all_ok rows "" hmap, String.empty_append]
  · exact flatMap_recordLines_length rows hlines

/-- C1 witness: a concrete two-row, 13-column input evaluated through the
pipeline. -/
theorem C1_rows13_lines_witness :
    gpuPipeline "a, 0,1,2,3,4,5,6,7,8,9,10,11\nb, 1,21,22,23,24,25,26,27,28,29,30,31" =
      ProcResult.ok (concatAll
        ([["a", " 0", "1", "2", "3", "4", "5", "6", "7", "8", "9", "10", "11"],
          ["b", " 1", "21", "22", "23", "24", "25", "26", "27", "28", "29", "30", "31"]].flatMap
            recordLines)) ∧
      (([["a", " 0", "1", "2", "3", "4", "5", "6", "7", "8", "9", "10", "11"],
         ["b", " 1", "21", "22", "23", "24", "25", "26", "27", "28", "29", "30", "31"]].flatMap
            recordLines)).length =
        [["a", " 0", "1", "2", "3", "4", "5", "6", "7", "8", "9", "10", "11"],
         ["b", " 1", "21", "22", "23", "24", "25", "26", "27", "28", "29", "30", "31"]].length * 11 :=
  C1_rows13_lines
    "a, 0,1,2,3,4,5,6,7,8,9,10,11\nb, 1,21,22,23,24,25,26,27,28,29,30,31"
    [["a", " 0", "1", "2", "3", "4", "5", "6", "7", "8", "9", "10", "11"],
     ["b", " 1", "21", "22", "23", "24", "25", "26", "27", "28", "29", "30", "31"]]
    rfl (by decide)

/-- C2 counterexample: for the spec's example row, the rendered buffer does
not begin with the claimed line `nvidia_fan_speed\x7bgpu="0", name="NVIDIA Tesla T4"\x7d 30\n`:
the value field keeps its leading space from the CSV input, so the line has
two spaces before `30`, not one. -/
theorem C2_single_space_counterexample :
    (bufferOf (gpuPipeline
        "NVIDIA Tesla T4, 0, 30, 45, 300, 1500, 5000, 70.5, 25, 10, 16384, 12000, 4384")).map
      (fun b => strBegins "nvidia_fan_speed\x7bgpu=\"0\", name=\"NVIDIA Tesla T4\"\x7d 30\n" b) =
      some false := rfl

/-- C2 (amended): for the spec's example row the buffer begins with exactly
the two lines `nvidia_fan_speed\x7bgpu="0", name="NVIDIA Tesla T4"\x7d  30\n` and
`nvidia_temperature_gpu\x7bgpu="0", name="NVIDIA Tesla T4"\x7d  45\n` — the index
label is trimmed of its leading space, but the value fields are rendered as
received, so each value is preceded by two spaces (the format's own space
plus the field's leading space). -/
theorem C2_first_two_lines_amended :
    (bufferOf (gpuPipeline
        "NVIDIA Tesla T4, 0, 30, 45, 300, 1500, 5000, 70.5, 25, 10, 16384, 12000, 4384")).map
      (fun b => strBegins
        ("nvidia_fan_speed\x7bgpu=\"0\", name=\"NVIDIA Tesla T4\"\x7d  30\n" ++
         "nvidia_temperature_gpu\x7bgpu=\"0\", name=\"NVIDIA Tesla T4\"\x7d  45\n") b) =
      some true := rfl

/-- C3: when the external tool cannot be started, `handle_metrics` returns
status 200 with a body byte-identical to the registry-only rendering — no GPU
lines and no error text are appended. -/
theorem C3_spawn_failure_registry_only (registryBuf : String) :
    handle_metrics registryBuf InvokeOutcome.spawnFailed =
      HttpResult.response 200 registryBuf := rfl

/-- C4 counterexample: a single parsed row with 14 fields does not complete
without error with 11 metric lines — the `unwrap` on `METRIC_LIST.get(idx)`
is reached at `idx = 11` and the pipeline panics. -/
theorem C4_extra_fields_counterexample :
    gpuPipeline "a,b,1,2,3,4,5,6,7,8,9,10,11,12" = ProcResult.panicked := rfl

/-- C4 (amended): for every parsed row with more than 13 fields, the catalog
lookup fails (`METRIC_LIST.get(idx)` is `None` at `idx = 11`) and the mapping
panics instead of ignoring the extra fields; any input parsing into exactly
such a record makes the whole pipeline panic. -/
theorem C4_long_record_panics (record : List String) (h : 13 < record.length) :
    mapRecord record = none ∧
      ∀ s, parseRecords s = [Except.ok record] → gpuPipeline s = ProcResult.panicked := by
  have hm := mapRecord_eq_none_of_long record h
  refine ⟨hm, fun s hs => ?_⟩
  unfold gpuPipeline
  rw [hs]
  simp [processRecords, hm]

/-- C4 witness: the amended claim at a concrete 14-field record. -/
theorem C4_long_record_panics_witness :
    mapRecord ["a", "b", "1", "2", "3", "4", "5", "6", "7", "8", "9", "10", "11", "12"] = none ∧
      ∀ s, parseRecords s =
          [Except.ok ["a", "b", "1", "2", "3", "4", "5", "6", "7", "8", "9", "10", "11", "12"]] →
        gpuPipeline s = ProcResult.panicked :=
  C4_long_record_panics
    ["a", "b", "1", "2", "3", "4", "5", "6", "7", "8", "9", "10", "11", "12"] (by decide)

/-- C5 counterexample: a single parsed row with one field does not produce a
`MappingError` value and a 200 registry-only response — the `unwrap` on
`record.get(1)` panics and the panic escapes `handle_metrics`, so no 200
response is produced. -/
theorem C5_one_field_counterexample :
    handle_metrics "reg" (InvokeOutcome.ran "foo" 0) = HttpResult.panicked ∧
      handle_metrics "reg" (InvokeOutcome.ran "foo" 0) ≠ HttpResult.response 200 "reg" :=
  ⟨rfl, by decide⟩

/-- C5 (amended): for every parsed row with at most one field, the mapping
stage panics (the `unwrap` on the missing index field), not an error value;
consequently, for an input parsing into exactly such a record the scrape
handler panics instead of returning the degraded 200 response. -/
theorem C5_short_record_panics (record : List String) (h : record.length ≤ 1) :
    mapRecord record = none ∧
      ∀ registryBuf s c, parseRecords s = [Except.ok record] →
        handle_metrics registryBuf (InvokeOutcome.ran s c) = HttpResult.panicked := by
  have hm := mapRecord_eq_none_of_short record h
  refine ⟨hm, fun registryBuf s c hs => ?_⟩
  have hg : gpuPipeline s = ProcResult.panicked := by
    unfold gpuPipeline
    rw [hs]
    simp [processRecords, hm]
  simp [handle_metrics, process_nvidia_smi, invoke, hg]

/-- C5 witness: the amended claim at a concrete one-field record. -/
theorem C5_short_record_panics_witness :
    mapRecord ["foo"] = none ∧
      ∀ registryBuf s c, parseRecords s = [Except.ok ["foo"]] →
        handle_metrics registryBuf (InvokeOutcome.ran s c) = HttpResult.panicked :=
  C5_short_record_panics ["foo"] (by decide)

/-- C6: a row-level parse error is request-scoped — if the parsed record
stream is some successfully mapped records followed by a record error, the
whole pipeline aborts with the parse error, and the scrape's body contains
only the registry buffer (no GPU line of the valid preceding rows survives). -/
theorem C6_parse_error_request_scoped (s : String) (pre : List (List String))
    (rest : List (Except Unit (List String)))
    (hp : parseRecords s = pre.map Except.ok ++ Except.error () :: rest)
    (hm : ∀ r ∈ pre, ∃ b, mapRecord r = some b) :
    gpuPipeline s = ProcResult.parseError ∧
      ∀ registryBuf c, handle_metrics registryBuf (InvokeOutcome.ran s c) =
        HttpResult.response 200 registryBuf := by
  have h1 : gpuPipeline s = ProcResult.parseError := by
    unfold gpuPipeline
    rw [hp]
    exact processRecords_parse_err pre rest "" hm
  refine ⟨h1, fun registryBuf c => ?_⟩
  simp [handle_metrics, process_nvidia_smi, invoke, h1]

/-- C6 witness: a valid two-field row followed by a one-field row (an
`UnequalLengths` record error) aborts the scrape's GPU pipeline. -/
theorem C6_parse_error_request_scoped_witness :
    gpuPipeline "a,b\nc" = ProcResult.parseError ∧
      ∀ registryBuf c, handle_metrics registryBuf (InvokeOutcome.ran "a,b\nc" c) =
        HttpResult.response 200 registryBuf :=
  C6_parse_error_request_scoped "a,b\nc" [["a", "b"]] [] rfl
    (by intro r hr; simp at hr; subst hr; exact ⟨"", rfl⟩)

/-- C7 counterexample: when the tool runs but exits with status 1 and empty
stdout, the invoker of the code returns the captured stdout (no error), while
the claim (modelled by `invokeSpec`) demands an `InvocationError` — the exit
status is never inspected by the code. -/
theorem C7_exit_status_counterexample :
    invoke (InvokeOutcome.ran "" 1) = Except.ok "" ∧
      invokeSpec (InvokeOutcome.ran "" 1) = Except.error () :=
  ⟨rfl, rfl⟩

/-- C7 (amended): the invoker returns an `InvocationError` exactly when the
external tool cannot be started; the exit status of a tool that did start is
not inspected (abnormal exit is not an error), and empty standard output
makes the pipeline succeed with an empty GPU buffer. -/
theorem C7_invocation_error_iff (o : InvokeOutcome) :
    (invoke o = Except.error () ↔ o = InvokeOutcome.spawnFailed) ∧
      ∀ c, process_nvidia_smi (InvokeOutcome.ran "" c) = ProcResult.ok "" := by
  constructor
  · cases o <;> simp [invoke]
  · intro c; rfl

/-- C8: an input parsing into a single record with exactly 7 fields succeeds
without error and emits exactly 5 metric lines, paired with the first five
catalog entries in catalog order. -/
theorem C8_seven_columns (s : String) (record : List String)
    (hp : parseRecords s = [Except.ok record]) (hlen : record.length = 7) :
    ∃ name index0 vs, record = name :: index0 :: vs ∧
      gpuPipeline s = ProcResult.ok (concatAll (((METRIC_LIST.take 5).zip vs).map
        (fun p => renderLine p.1 (trimStr index0) name p.2))) ∧
      ((METRIC_LIST.take 5).zip vs).map (fun p => renderLine p.1 (trimStr index0) name p.2) =
        recordLines record ∧
      (recordLines record).length = 5 := by
  match record with
  | name :: index0 :: vs =>
    have hvs : vs.length = 5 := by simpa using hlen
    have hzip : (METRIC_LIST.take 5).zip vs = METRIC_LIST.zip vs := by
      rw [← hvs]
      exact zip_take_len METRIC_LIST vs
    have hrl : ((METRIC_LIST.take 5).zip vs).map
        (fun p => renderLine p.1 (trimStr index0) name p.2) =
        recordLines (name :: index0 :: vs) := by
      rw [hzip]; rfl
    refine ⟨name, index0, vs, rfl, ?_, hrl, ?_⟩
    · unfold gpuPipeline
      rw [hp, hrl]
      simp [processRecords, mapRecord_eq_some name index0 vs (by omega), String.empty_append]
    · rw [recordLines_length, hvs]
      decide
  | [] => simp at hlen
  | [x] => simp at hlen

/-- C8 witness: a concrete single 7-column row. -/
theorem C8_seven_columns_witness :
    ∃ name index0 vs, ["a", " 0", "1", "2", "3", "4", "5"] = name :: index0 :: vs ∧
      gpuPipeline "a, 0,1,2,3,4,5" = ProcResult.ok (concatAll (((METRIC_LIST.take 5).zip vs).map
        (fun p => renderLine p.1 (trimStr index0) name p.2))) ∧
      ((METRIC_LIST.take 5).zip vs).map (fun p => renderLine p.1 (trimStr index0) name p.2) =
        recordLines ["a", " 0", "1", "2", "3", "4", "5"] ∧
      (recordLines ["a", " 0", "1", "2", "3", "4", "5"]).length = 5 :=
  C8_seven_columns "a, 0,1,2,3,4,5" ["a", " 0", "1", "2", "3", "4", "5"] rfl (by decide)

/-- C9: the metric catalog is the fixed ordered list of exactly the eleven
documented names, and its order exactly matches the column order of the
query argument: columns 2 through 12 (0-indexed) after the identifying
columns `name` and `index`, each metric name being `nvidia_` plus the column
name with dots replaced by underscores. -/
theorem C9_catalog_matches_query :
    METRIC_LIST =
      ["nvidia_fan_speed", "nvidia_temperature_gpu", "nvidia_clocks_gr", "nvidia_clocks_sm",
       "nvidia_clocks_mem", "nvidia_power_draw", "nvidia_utilization_gpu",
       "nvidia_utilization_memory", "nvidia_memory_total", "nvidia_memory_free",
       "nvidia_memory_used"] ∧
    METRIC_LIST.length = 11 ∧
    queryColumns.length = 13 ∧
    queryColumns.take 2 = ["name", "index"] ∧
    (queryColumns.drop 2).map colMetric = METRIC_LIST :=
  ⟨rfl, rfl, rfl, rfl, rfl⟩

/-- C10: the CSV reader is non-flexible — in a multi-row input, a row whose
field count differs from the first row's yields a record error at its
position, and consequently the GPU pipeline of that scrape can never
succeed. -/
theorem C10_unequal_lengths_error (s : String) (k : Nat) (l0 lk : List Char)
    (h0 : (csvLines s).head? = some l0)
    (hk : (csvLines s).get? k = some lk)
    (hne : (splitFields lk).length ≠ (splitFields l0).length) :
    (parseRecords s).get? k = some (Except.error ()) ∧
      ∀ b, gpuPipeline s ≠ ProcResult.ok b := by
  cases hcl : csvLines s with
  | nil => rw [hcl] at h0; simp at h0
  | cons a rest =>
    rw [hcl] at h0 hk
    have ha : a = l0 := by simpa using h0
    subst ha
    have h1 : (parseRecords s).get? k = some (Except.error ()) := by
      unfold parseRecords
      rw [hcl, List.get?_map, hk]
      simp [hne]
    refine ⟨h1, fun b => ?_⟩
    have hmem : Except.error () ∈ parseRecords s := List.get?_mem h1
    unfold gpuPipeline
    exact processRecords_ne_ok_of_mem_err (parseRecords s) "" b hmem

/-- C10 witness: a two-field first row followed by a three-field row. -/
theorem C10_unequal_lengths_error_witness :
    (parseRecords "a,b\nc,d,e").get? 1 = some (Except.error ()) ∧
      ∀ b, gpuPipeline "a,b\nc,d,e" ≠ ProcResult.ok b :=
  C10_unequal_lengths_error "a,b\nc,d,e" 1 ['a', ',', 'b'] ['c', ',', 'd', ',', 'e']
    rfl rfl (by decide)

end NvidiaSmi
